import Mathlib

/-!
# Verification of the flight-sim core (`src/flight-sim/src/main.rs`)

A shallow embedding of the aircraft physics core of the flight simulator:
the `Plane` state, its per-frame `update` (input axes, throttle clamp,
thrust/lift/drag/gravity integration, Euler-delta orientation update,
ground clamp), the separate `apply_brake` operation, and the main-loop
frame step that sequences them.  Machine `f32` arithmetic is modelled
over `ℝ`; the glam vector/quaternion operations the code calls are
embedded by their defining formulas.
-/

noncomputable section

namespace FlightSim

open Real

/-- 3-component vector over `ℝ`, modelling glam's `Vec3`. -/
structure Vec3 where
  x : ℝ
  y : ℝ
  z : ℝ

namespace Vec3

instance : Add Vec3 := ⟨fun a b => ⟨a.x + b.x, a.y + b.y, a.z + b.z⟩⟩

instance : Neg Vec3 := ⟨fun a => ⟨-a.x, -a.y, -a.z⟩⟩

/-- Scalar multiplication `v * c` (glam `Vec3 * f32`). -/
def smul (v : Vec3) (c : ℝ) : Vec3 := ⟨v.x * c, v.y * c, v.z * c⟩

/-- Dot product (glam `Vec3::dot`). -/
def dot (a b : Vec3) : ℝ := a.x * b.x + a.y * b.y + a.z * b.z

/-- Cross product (glam `Vec3::cross`). -/
def cross (a b : Vec3) : Vec3 :=
  ⟨a.y * b.z - a.z * b.y, a.z * b.x - a.x * b.z, a.x * b.y - a.y * b.x⟩

/-- Euclidean length (glam `Vec3::length`). -/
def length (v : Vec3) : ℝ := Real.sqrt (dot v v)

end Vec3

/-- Quaternion over `ℝ` with glam's component order `(x, y, z, w)`,
modelling glam's `Quat`. -/
structure Quat where
  x : ℝ
  y : ℝ
  z : ℝ
  w : ℝ

namespace Quat

/-- The identity quaternion (glam `Quat::IDENTITY`). -/
def identity : Quat := ⟨0, 0, 0, 1⟩

/-- The zero quaternion (only used to state non-degeneracy hypotheses). -/
def zero : Quat := ⟨0, 0, 0, 0⟩

/-- Hamilton product (glam `Quat::mul_quat`). -/
def mul (a b : Quat) : Quat :=
  ⟨a.w * b.x + a.x * b.w + a.y * b.z - a.z * b.y,
   a.w * b.y - a.x * b.z + a.y * b.w + a.z * b.x,
   a.w * b.z + a.x * b.y - a.y * b.x + a.z * b.w,
   a.w * b.w - a.x * b.x - a.y * b.y - a.z * b.z⟩

/-- Scalar multiplication of a quaternion. -/
def smul (q : Quat) (c : ℝ) : Quat := ⟨q.x * c, q.y * c, q.z * c, q.w * c⟩

/-- Squared norm. -/
def normSq (q : Quat) : ℝ := q.x * q.x + q.y * q.y + q.z * q.z + q.w * q.w

/-- Norm (glam `Quat::length`). -/
def length (q : Quat) : ℝ := Real.sqrt q.normSq

/-- Normalization `q / |q|` (glam `Quat::normalize`). -/
def normalize (q : Quat) : Quat := q.smul (1 / q.length)

/-- Rotation of a vector by a quaternion (glam `Quat::mul_vec3`):
`v * (w² - b·b) + b * (2 v·b) + (b × v) * 2w` with `b = (x, y, z)`. -/
def mulVec3 (q : Quat) (v : Vec3) : Vec3 :=
  let b : Vec3 := ⟨q.x, q.y, q.z⟩
  let b2 := Vec3.dot b b
  v.smul (q.w * q.w - b2) + b.smul (Vec3.dot v b * 2) + (b.cross v).smul (q.w * 2)

/-- Rotation about the X axis (glam `Quat::from_rotation_x`). -/
def rotX (a : ℝ) : Quat := ⟨Real.sin (a / 2), 0, 0, Real.cos (a / 2)⟩

/-- Rotation about the Y axis (glam `Quat::from_rotation_y`). -/
def rotY (a : ℝ) : Quat := ⟨0, Real.sin (a / 2), 0, Real.cos (a / 2)⟩

/-- Rotation about the Z axis (glam `Quat::from_rotation_z`). -/
def rotZ (a : ℝ) : Quat := ⟨0, 0, Real.sin (a / 2), Real.cos (a / 2)⟩

/-- Euler-angle quaternion in intrinsic X-then-Y-then-Z order
(glam `Quat::from_euler(EulerRot::XYZ, a, b, c)`). -/
def fromEulerXYZ (a b c : ℝ) : Quat := ((rotX a).mul (rotY b)).mul (rotZ c)

end Quat

/-- Control-input snapshot for one frame (`InputState` in the source). -/
structure InputState where
  roll_left : Bool
  roll_right : Bool
  pitch_up : Bool
  pitch_down : Bool
  yaw_left : Bool
  yaw_right : Bool
  throttle_delta : ℝ
  brake : Bool
  cockpit : Bool

/-- Rust's `b as i8 as f32` conversion of a boolean. -/
def boolToR (b : Bool) : ℝ := if b then 1 else 0

/-- `yaw_input` computed in `Plane::update` (line 43):
`yaw_left as f32 - yaw_right as f32`. -/
def yaw_input (i : InputState) : ℝ := boolToR i.yaw_left - boolToR i.yaw_right

/-- `pitch_input` computed in `Plane::update` (line 44):
`pitch_up as f32 - pitch_down as f32`. -/
def pitch_input (i : InputState) : ℝ := boolToR i.pitch_up - boolToR i.pitch_down

/-- `roll_input` computed in `Plane::update` (line 45):
`roll_right as f32 - roll_left as f32`. -/
def roll_input (i : InputState) : ℝ := boolToR i.roll_right - boolToR i.roll_left

/-- Rust `f32::clamp lo hi` (for `lo ≤ hi`). -/
def clampR (lo hi x : ℝ) : ℝ := min (max x lo) hi

/-- `GRAVITY` constant. -/
def GRAVITY : Vec3 := ⟨0, -9.81, 0⟩

/-- `DRAG_COEFF` constant. -/
def DRAG_COEFF : ℝ := 0.08

/-- `LIFT_COEFF` constant. -/
def LIFT_COEFF : ℝ := 11.5

/-- `THROTTLE_STEP` constant. -/
def THROTTLE_STEP : ℝ := 0.5

/-- `MAX_SPEED` constant. -/
def MAX_SPEED : ℝ := 130

/-- `MIN_SPEED` constant. -/
def MIN_SPEED : ℝ := 12

/-- `ROLL_RATE` constant. -/
def ROLL_RATE : ℝ := 1.4

/-- `PITCH_RATE` constant. -/
def PITCH_RATE : ℝ := 0.9

/-- `YAW_RATE` constant. -/
def YAW_RATE : ℝ := 0.4

/-- Aircraft state (`struct Plane` in the source). -/
structure Plane where
  position : Vec3
  velocity : Vec3
  orientation : Quat
  throttle : ℝ

namespace Plane

/-- `Plane::new`: initial state. -/
def new : Plane :=
  { position := ⟨0, 90, 0⟩
    velocity := ⟨0, 0, -50⟩
    orientation := Quat.identity
    throttle := 0.7 }

/-- `Plane::forward`: orientation applied to `(0, 0, -1)`. -/
def forward (s : Plane) : Vec3 := s.orientation.mulVec3 ⟨0, 0, -1⟩

/-- `Plane::right`: orientation applied to `(1, 0, 0)`. -/
def right (s : Plane) : Vec3 := s.orientation.mulVec3 ⟨1, 0, 0⟩

/-- `Plane::up`: orientation applied to `(0, 1, 0)`. -/
def up (s : Plane) : Vec3 := s.orientation.mulVec3 ⟨0, 1, 0⟩

/-- `Plane::update` (lines 42–76): throttle clamp, proportional thrust,
lift, drag, gravity, semi-implicit Euler integration, Euler-delta
orientation update, ground clamp. -/
def update (s : Plane) (dt : ℝ) (input : InputState) : Plane :=
  let throttle := clampR 0.1 1.4 (s.throttle + input.throttle_delta * THROTTLE_STEP * dt)
  let target_speed := MIN_SPEED + (MAX_SPEED - MIN_SPEED) * throttle
  let fwd := s.forward
  let speed_along_forward := Vec3.dot s.velocity fwd
  let thrust := fwd.smul ((target_speed - speed_along_forward) * 14.0)
  let speed := max s.velocity.length 1.0
  let lift_dir := s.up
  let lift := lift_dir.smul (speed * speed * LIFT_COEFF * max |fwd.y| 0.08)
  let drag := (-s.velocity).smul (speed * DRAG_COEFF)
  let net_force := thrust + lift + drag + GRAVITY
  let velocity := s.velocity + net_force.smul dt
  let position := s.position + velocity.smul dt
  let rotation_delta := Quat.fromEulerXYZ (pitch_input input * PITCH_RATE * dt)
      (yaw_input input * YAW_RATE * dt) (roll_input input * ROLL_RATE * dt)
  let orientation := (s.orientation.mul rotation_delta).normalize
  if position.y < 2.5 then
    { position := { position with y := 2.5 }
      velocity := { velocity with y := max velocity.y 0 }
      orientation := orientation
      throttle := throttle }
  else
    { position := position, velocity := velocity
      orientation := orientation, throttle := throttle }

end Plane

/-- `apply_brake` (lines 250–255): when `|velocity| > 1`, scale velocity
by `clamp(1 - dt * 5, 0, 0.95)`. -/
def apply_brake (p : Plane) (dt : ℝ) : Plane :=
  let speed := p.velocity.length
  if speed > 1.0 then
    { p with velocity := p.velocity.smul (clampR 0.0 0.95 (1.0 - dt * 5.0)) }
  else
    p

/-- One iteration of the physics part of the main loop (lines 272–275):
`plane.update(dt, &input); if input.brake { apply_brake(&mut plane, dt); }`. -/
def frameStep (p : Plane) (dt : ℝ) (i : InputState) : Plane :=
  let p1 := p.update dt i
  if i.brake then apply_brake p1 dt else p1

/-- Repeated `Plane::update` over a list of per-frame `(dt, input)` pairs. -/
def runUpdates (s : Plane) (steps : List (ℝ × InputState)) : Plane :=
  steps.foldl (fun p st => p.update st.1 st.2) s

/-- The post-integration velocity prescribed by the spec's §4.2 formulas
(steps 2–9), written from the spec's words for comparison with
`Plane.update`: `velocity + (thrust + lift + drag + gravity) * dt` with
`thrust = forward * (target_speed - dot(velocity, forward)) * 14.0`,
`target_speed = 12 + (130 - 12) * throttle'`,
`lift = up * speed² * 11.5 * max(|forward.y|, 0.08)`,
`speed = max(|velocity|, 1.0)`, `drag = -velocity * speed * 0.08`,
`gravity = (0, -9.81, 0)`. -/
def specNewVelocity (s : Plane) (dt : ℝ) (i : InputState) : Vec3 :=
  let throttle := clampR 0.1 1.4 (s.throttle + i.throttle_delta * 0.5 * dt)
  let target_speed := 12 + (130 - 12) * throttle
  let fwd := s.forward
  let thrust := fwd.smul ((target_speed - Vec3.dot s.velocity fwd) * 14.0)
  let speed := max s.velocity.length 1.0
  let lift := (s.up).smul (speed * speed * 11.5 * max |fwd.y| 0.08)
  let drag := (-s.velocity).smul (speed * 0.08)
  s.velocity + (thrust + lift + drag + (⟨0, -9.81, 0⟩ : Vec3)).smul dt

/-- The post-integration position prescribed by the spec's §4.2 formulas:
`position + velocity' * dt` with `velocity'` the already-updated velocity
(semi-implicit Euler). -/
def specNewPosition (s : Plane) (dt : ℝ) (i : InputState) : Vec3 :=
  s.position + (specNewVelocity s dt i).smul dt

/-- The post-update orientation of `Plane::update` (lines 64–70), named for
use in statements: `normalize(orientation * delta)` with `delta` the Euler
rotation from the per-axis increments. -/
def specNewOrientation (s : Plane) (dt : ℝ) (i : InputState) : Quat :=
  (s.orientation.mul (Quat.fromEulerXYZ (pitch_input i * PITCH_RATE * dt)
    (yaw_input i * YAW_RATE * dt) (roll_input i * ROLL_RATE * dt))).normalize

/-- Input snapshot with every flag false and `throttle_delta = 0`. -/
def inputNone : InputState :=
  { roll_left := false, roll_right := false, pitch_up := false
    pitch_down := false, yaw_left := false, yaw_right := false
    throttle_delta := 0, brake := false, cockpit := false }

/-- Input snapshot holding only the yaw-left flag. -/
def inputYawLeft : InputState := { inputNone with yaw_left := true }

/-- Input snapshot holding only the yaw-right flag. -/
def inputYawRight : InputState := { inputNone with yaw_right := true }

/-- Input snapshot holding only the brake flag. -/
def inputBrake : InputState := { inputNone with brake := true }

/-- A state resting at the origin with zero velocity (used to exercise the
ground clamp). -/
def planeLow : Plane :=
  { position := ⟨0, 0, 0⟩, velocity := ⟨0, 0, 0⟩
    orientation := Quat.identity, throttle := 0.7 }

/-- State with the aircraft rolled 180° about its X axis (a unit, non-identity
orientation), used to separate post- from pre-multiplied rotation deltas. -/
def planeFlipped : Plane :=
  { position := ⟨0, 90, 0⟩, velocity := ⟨0, 0, -50⟩
    orientation := ⟨1, 0, 0, 0⟩, throttle := 0.7 }

/-! ## Helper lemmas -/

@[simp] theorem Vec3.add_def (a b : Vec3) :
    a + b = ⟨a.x + b.x, a.y + b.y, a.z + b.z⟩ := rfl

@[simp] theorem Vec3.neg_def (a : Vec3) : -a = ⟨-a.x, -a.y, -a.z⟩ := rfl

theorem sqrt_eval (a b : ℝ) (hb : 0 ≤ b) (h : a = b ^ 2) : Real.sqrt a = b := by
  rw [h, Real.sqrt_sq hb]

theorem Plane.update_eq (s : Plane) (dt : ℝ) (i : InputState) :
    s.update dt i =
      if (specNewPosition s dt i).y < 2.5 then
        { position := { specNewPosition s dt i with y := 2.5 }
          velocity := { specNewVelocity s dt i with y := max (specNewVelocity s dt i).y 0 }
          orientation := specNewOrientation s dt i
          throttle := clampR 0.1 1.4 (s.throttle + i.throttle_delta * 0.5 * dt) }
      else
        { position := specNewPosition s dt i
          velocity := specNewVelocity s dt i
          orientation := specNewOrientation s dt i
          throttle := clampR 0.1 1.4 (s.throttle + i.throttle_delta * 0.5 * dt) } := rfl

theorem Plane.update_throttle (s : Plane) (dt : ℝ) (i : InputState) :
    (s.update dt i).throttle
      = clampR 0.1 1.4 (s.throttle + i.throttle_delta * 0.5 * dt) := by
  rw [Plane.update_eq]
  split <;> rfl

theorem Plane.update_orientation (s : Plane) (dt : ℝ) (i : InputState) :
    (s.update dt i).orientation = specNewOrientation s dt i := by
  rw [Plane.update_eq]
  split <;> rfl

theorem clampR_bounds (lo hi x : ℝ) (h : lo ≤ hi) :
    lo ≤ clampR lo hi x ∧ clampR lo hi x ≤ hi :=
  ⟨le_min (le_max_right x lo) h, min_le_right _ _⟩

theorem Quat.identity_mulVec3 (v : Vec3) : Quat.identity.mulVec3 v = v := by
  rcases v with ⟨a, b, c⟩
  simp [Quat.identity, Quat.mulVec3, Vec3.dot, Vec3.cross, Vec3.smul]

theorem forward_of_identity (s : Plane) (h : s.orientation = Quat.identity) :
    s.forward = ⟨0, 0, -1⟩ := by
  unfold Plane.forward
  rw [h, Quat.identity_mulVec3]

theorem up_of_identity (s : Plane) (h : s.orientation = Quat.identity) :
    s.up = ⟨0, 1, 0⟩ := by
  unfold Plane.up
  rw [h, Quat.identity_mulVec3]

theorem length_new_velocity : Plane.new.velocity.length = 50 := by
  have hd : Vec3.dot Plane.new.velocity Plane.new.velocity = 2500 := by
    norm_num [Vec3.dot, Plane.new]
  unfold Vec3.length
  rw [hd]
  exact sqrt_eval _ _ (by norm_num) (by norm_num)

theorem length_planeLow_velocity : planeLow.velocity.length = 0 := by
  have hd : Vec3.dot planeLow.velocity planeLow.velocity = 0 := by
    norm_num [Vec3.dot, planeLow]
  unfold Vec3.length
  rw [hd, Real.sqrt_zero]

theorem specNewVelocity_new :
    specNewVelocity Plane.new (1/60) inputNone = ⟨0, 229019/6000, -8561/150⟩ := by
  unfold specNewVelocity
  rw [forward_of_identity Plane.new rfl, up_of_identity Plane.new rfl,
    length_new_velocity]
  simp [Plane.new, inputNone, clampR, Vec3.smul, Vec3.dot]
  norm_num [min_def, max_def]

theorem specNewPosition_new_y :
    (specNewPosition Plane.new (1/60) inputNone).y = 32629019/360000 := by
  unfold specNewPosition
  rw [specNewVelocity_new]
  simp [Plane.new, Vec3.smul]
  norm_num

theorem specNewVelocity_planeLow :
    specNewVelocity planeLow (1/60) inputNone = ⟨0, -(889/6000), -(3311/150)⟩ := by
  unfold specNewVelocity
  rw [forward_of_identity planeLow rfl, up_of_identity planeLow rfl,
    length_planeLow_velocity]
  simp [planeLow, inputNone, clampR, Vec3.smul, Vec3.dot]
  norm_num [min_def, max_def]

theorem specNewPosition_planeLow_y :
    (specNewPosition planeLow (1/60) inputNone).y = -(889/360000) := by
  unfold specNewPosition
  rw [specNewVelocity_planeLow]
  simp [planeLow, Vec3.smul]
  norm_num

theorem Vec3.length_nonneg (v : Vec3) : 0 ≤ v.length := Real.sqrt_nonneg _

theorem Vec3.length_smul (v : Vec3) (c : ℝ) (h : 0 ≤ c) :
    (v.smul c).length = c * v.length := by
  unfold Vec3.length Vec3.smul Vec3.dot
  simp only
  rw [show v.x * c * (v.x * c) + v.y * c * (v.y * c) + v.z * c * (v.z * c)
      = c ^ 2 * (v.x * v.x + v.y * v.y + v.z * v.z) by ring,
    Real.sqrt_mul (sq_nonneg c), Real.sqrt_sq h]

theorem Quat.normSq_nonneg (q : Quat) : 0 ≤ q.normSq := by
  unfold Quat.normSq
  nlinarith [mul_self_nonneg q.x, mul_self_nonneg q.y, mul_self_nonneg q.z,
    mul_self_nonneg q.w]

theorem Quat.normSq_mul (a b : Quat) : (a.mul b).normSq = a.normSq * b.normSq := by
  simp only [Quat.mul, Quat.normSq]
  ring

theorem Quat.normSq_smul (q : Quat) (c : ℝ) : (q.smul c).normSq = c ^ 2 * q.normSq := by
  simp only [Quat.smul, Quat.normSq]
  ring

theorem Quat.smul_length (q : Quat) (c : ℝ) (h : 0 ≤ c) :
    (q.smul c).length = c * q.length := by
  unfold Quat.length
  rw [Quat.normSq_smul, Real.sqrt_mul (sq_nonneg c), Real.sqrt_sq h]

theorem Quat.length_normalize (q : Quat) (h : q.normSq ≠ 0) :
    q.normalize.length = 1 := by
  have hpos : 0 < q.length :=
    Real.sqrt_pos.mpr (lt_of_le_of_ne (Quat.normSq_nonneg q) (Ne.symm h))
  unfold Quat.normalize
  rw [Quat.smul_length q _ (one_div_nonneg.mpr hpos.le)]
  field_simp

theorem Quat.normSq_rotX (a : ℝ) : (Quat.rotX a).normSq = 1 := by
  have hsc := Real.sin_sq_add_cos_sq (a / 2)
  simp only [Quat.rotX, Quat.normSq]
  nlinarith [hsc]

theorem Quat.normSq_rotY (a : ℝ) : (Quat.rotY a).normSq = 1 := by
  have hsc := Real.sin_sq_add_cos_sq (a / 2)
  simp only [Quat.rotY, Quat.normSq]
  nlinarith [hsc]

theorem Quat.normSq_rotZ (a : ℝ) : (Quat.rotZ a).normSq = 1 := by
  have hsc := Real.sin_sq_add_cos_sq (a / 2)
  simp only [Quat.rotZ, Quat.normSq]
  nlinarith [hsc]

theorem Quat.normSq_fromEulerXYZ (a b c : ℝ) :
    (Quat.fromEulerXYZ a b c).normSq = 1 := by
  unfold Quat.fromEulerXYZ
  rw [Quat.normSq_mul, Quat.normSq_mul, Quat.normSq_rotX, Quat.normSq_rotY,
    Quat.normSq_rotZ]
  norm_num

theorem new_orientation_length : Plane.new.orientation.length = 1 := by
  unfold Quat.length
  rw [show Plane.new.orientation.normSq = 1 from by
    norm_num [Plane.new, Quat.identity, Quat.normSq]]
  exact Real.sqrt_one

theorem runUpdates_throttle_mem (steps : List (ℝ × InputState)) :
    ∀ s : Plane, 0.1 ≤ s.throttle → s.throttle ≤ 1.4 →
      0.1 ≤ (runUpdates s steps).throttle ∧ (runUpdates s steps).throttle ≤ 1.4 := by
  induction steps with
  | nil => exact fun s h1 h2 => ⟨h1, h2⟩
  | cons st rest ih =>
      intro s h1 h2
      have hb := clampR_bounds 0.1 1.4
        (s.throttle + st.2.throttle_delta * 0.5 * st.1) (by norm_num)
      have ht := Plane.update_throttle s st.1 st.2
      exact ih (s.update st.1 st.2) (by rw [ht]; exact hb.1) (by rw [ht]; exact hb.2)

theorem new_no_ground_clamp :
    ¬ ((specNewPosition Plane.new (1/60) inputNone).y < 2.5) := by
  rw [specNewPosition_new_y]
  norm_num

/-! ## Claim theorems -/

/-- C1: for every state, `dt ∈ [1/200, 1/30]` and input (in the regime where
the integrated altitude stays at or above the ground plane, so the ground
clamp does not fire), `update` produces exactly the spec's semi-implicit
Euler step: `velocity' = velocity + (thrust + lift + drag + gravity) * dt`
and `position' = position + velocity' * dt`, with thrust, lift, drag,
gravity and the updated throttle given by the spec's §4.2 formulas
(spelled out in `specNewVelocity` and `specNewPosition`). -/
theorem update_follows_spec_forces (s : Plane) (dt : ℝ) (i : InputState)
    (hdt : 1/200 ≤ dt ∧ dt ≤ 1/30)
    (hground : 2.5 ≤ (specNewPosition s dt i).y) :
    (s.update dt i).velocity = specNewVelocity s dt i ∧
    (s.update dt i).position = specNewPosition s dt i := by
  rw [Plane.update_eq, if_neg (not_lt.mpr hground)]
  exact ⟨rfl, rfl⟩

/-- Witness for C1: the integration formula holds at the initial state with
`dt = 1/60` and neutral input. -/
theorem update_follows_spec_forces_witness :
    (Plane.new.update (1/60) inputNone).velocity
        = specNewVelocity Plane.new (1/60) inputNone ∧
    (Plane.new.update (1/60) inputNone).position
        = specNewPosition Plane.new (1/60) inputNone :=
  update_follows_spec_forces Plane.new (1/60) inputNone
    ⟨by norm_num, by norm_num⟩
    (by rw [specNewPosition_new_y]; norm_num)

/-- C2: starting from any state whose throttle lies in `[0.1, 1.4]`, every
sequence of updates with arbitrary `dt` and `throttle_delta` keeps the
throttle in `[0.1, 1.4]`, and each single update sets the throttle to
`clamp(throttle + throttle_delta * 0.5 * dt, 0.1, 1.4)`. -/
theorem throttle_clamp_invariant (s : Plane) (dt : ℝ) (i : InputState)
    (h1 : 0.1 ≤ s.throttle) (h2 : s.throttle ≤ 1.4)
    (steps : List (ℝ × InputState)) :
    (s.update dt i).throttle
        = clampR 0.1 1.4 (s.throttle + i.throttle_delta * 0.5 * dt) ∧
    0.1 ≤ (runUpdates s steps).throttle ∧
    (runUpdates s steps).throttle ≤ 1.4 :=
  ⟨Plane.update_throttle s dt i, runUpdates_throttle_mem steps s h1 h2⟩

/-- Witness for C2: the throttle invariant at the initial state
(throttle `0.7`) over a concrete two-frame step sequence. -/
theorem throttle_clamp_invariant_witness :
    (Plane.new.update (1/60) inputNone).throttle
        = clampR 0.1 1.4 (Plane.new.throttle
            + inputNone.throttle_delta * 0.5 * (1/60)) ∧
    0.1 ≤ (runUpdates Plane.new [(1/60, inputNone), (1/30, inputNone)]).throttle ∧
    (runUpdates Plane.new [(1/60, inputNone), (1/30, inputNone)]).throttle ≤ 1.4 :=
  throttle_clamp_invariant Plane.new (1/60) inputNone
    (by norm_num [Plane.new]) (by norm_num [Plane.new])
    [(1/60, inputNone), (1/30, inputNone)]

/-- C3 counterexample: the claim's concrete example is false on the code.
`Plane::update` computes `yaw_input = yaw_left as f32 - yaw_right as f32`,
so holding only yaw-left gives `+1` (the claim says `-1`) and holding only
yaw-right gives `-1` (the claim says `+1`). -/
theorem yaw_axis_sign_cex :
    yaw_input inputYawLeft = 1 ∧ yaw_input inputYawRight = -1 := by
  constructor <;>
    norm_num [yaw_input, boolToR, inputYawLeft, inputYawRight, inputNone]

/-- C3 (amended): each signed control axis equals the difference of its two
flags converted to numbers and lies in `{-1, 0, 1}`; the polarity is
`yaw_left - yaw_right`, `pitch_up - pitch_down`, `roll_right - roll_left`,
so the yaw axis is `+1` when only yaw-left is held and `-1` when only
yaw-right is held. -/
theorem control_axes_signed (i : InputState) :
    yaw_input i = boolToR i.yaw_left - boolToR i.yaw_right ∧
    pitch_input i = boolToR i.pitch_up - boolToR i.pitch_down ∧
    roll_input i = boolToR i.roll_right - boolToR i.roll_left ∧
    (yaw_input i = -1 ∨ yaw_input i = 0 ∨ yaw_input i = 1) ∧
    (pitch_input i = -1 ∨ pitch_input i = 0 ∨ pitch_input i = 1) ∧
    (roll_input i = -1 ∨ roll_input i = 0 ∨ roll_input i = 1) := by
  refine ⟨rfl, rfl, rfl, ?_, ?_, ?_⟩
  · unfold yaw_input boolToR
    cases i.yaw_left <;> cases i.yaw_right <;> norm_num
  · unfold pitch_input boolToR
    cases i.pitch_up <;> cases i.pitch_down <;> norm_num
  · unfold roll_input boolToR
    cases i.roll_right <;> cases i.roll_left <;> norm_num

/-- C4 counterexample: in the spec's §8 scenario (`dt = 1/60`, initial state
of §3, all inputs neutral) the altitude does not decrease after one update:
at speed 50 the lift term `50² * 11.5 * 0.08 = 2300` dwarfs gravity `9.81`,
so the net vertical force is upward. -/
theorem scenario_altitude_cex :
    ¬ ((Plane.new.update (1/60) inputNone).position.y < 90) := by
  rw [Plane.update_eq, if_neg new_no_ground_clamp]
  show ¬ ((specNewPosition Plane.new (1/60) inputNone).y < 90)
  rw [specNewPosition_new_y]
  norm_num

/-- C4 (amended): with `dt = 1/60`, the §3 initial state and all-neutral
input, one `update` strictly increases `position.y` above 90. -/
theorem scenario_altitude_increases :
    90 < (Plane.new.update (1/60) inputNone).position.y := by
  rw [Plane.update_eq, if_neg new_no_ground_clamp]
  show (90:ℝ) < (specNewPosition Plane.new (1/60) inputNone).y
  rw [specNewPosition_new_y]
  norm_num

/-- C5: after every update the resulting `position.y` is at least 2.5, and
whenever the integrated position falls below 2.5 the update sets
`position.y = 2.5` and `velocity.y = max(velocity.y, 0)` while leaving the
x and z velocity components of the integrated velocity unchanged. -/
theorem ground_clamp_floor (s : Plane) (dt : ℝ) (i : InputState) :
    2.5 ≤ (s.update dt i).position.y ∧
    ((specNewPosition s dt i).y < 2.5 →
      (s.update dt i).position.y = 2.5 ∧
      (s.update dt i).velocity.y = max (specNewVelocity s dt i).y 0 ∧
      (s.update dt i).velocity.x = (specNewVelocity s dt i).x ∧
      (s.update dt i).velocity.z = (specNewVelocity s dt i).z) := by
  rw [Plane.update_eq]
  by_cases h : (specNewPosition s dt i).y < 2.5
  · rw [if_pos h]
    exact ⟨le_refl (2.5:ℝ), fun _ => ⟨rfl, rfl, rfl, rfl⟩⟩
  · rw [if_neg h]
    exact ⟨not_lt.mp h, fun hc => absurd hc h⟩

/-- Witness for C5: starting at rest on the ground plane (`planeLow`), one
update with `dt = 1/60` triggers the clamp: the resulting altitude is
exactly 2.5 and the downward vertical velocity is zeroed. -/
theorem ground_clamp_floor_witness :
    2.5 ≤ (planeLow.update (1/60) inputNone).position.y ∧
    (planeLow.update (1/60) inputNone).position.y = 2.5 ∧
    (planeLow.update (1/60) inputNone).velocity.y = 0 := by
  obtain ⟨h1, h2⟩ := ground_clamp_floor planeLow (1/60) inputNone
  have hc : (specNewPosition planeLow (1/60) inputNone).y < 2.5 := by
    rw [specNewPosition_planeLow_y]
    norm_num
  obtain ⟨hy, hv, -, -⟩ := h2 hc
  refine ⟨h1, hy, ?_⟩
  rw [hv, specNewVelocity_planeLow]
  show max (-(889/6000) : ℝ) 0 = 0
  rw [max_eq_right (by norm_num : (-(889/6000) : ℝ) ≤ 0)]

/-- C6: for every state and `dt ∈ [1/200, 1/30]`, `apply_brake` scales the
velocity by `clamp(1 - dt*5, 0, 0.95)` when the speed exceeds 1 — so the
speed scales by that factor, strictly decreases, and at least 5% of it is
retained — and leaves the state unchanged when the speed is at most 1. -/
theorem apply_brake_behavior (p : Plane) (dt : ℝ)
    (hdt : 1/200 ≤ dt ∧ dt ≤ 1/30) :
    (1 < p.velocity.length →
      (apply_brake p dt).velocity
          = p.velocity.smul (clampR 0.0 0.95 (1.0 - dt * 5.0)) ∧
      (apply_brake p dt).velocity.length
          = clampR 0.0 0.95 (1.0 - dt * 5.0) * p.velocity.length ∧
      (apply_brake p dt).velocity.length < p.velocity.length ∧
      0.05 * p.velocity.length ≤ (apply_brake p dt).velocity.length) ∧
    (p.velocity.length ≤ 1 → apply_brake p dt = p) := by
  have hk1 : (5/6 : ℝ) ≤ clampR 0.0 0.95 (1.0 - dt * 5.0) := by
    have h56 : (5/6 : ℝ) ≤ 1.0 - dt * 5.0 := by nlinarith [hdt.2]
    exact le_min (le_trans h56 (le_max_left _ _)) (by norm_num)
  have hk2 : clampR 0.0 0.95 (1.0 - dt * 5.0) ≤ 0.95 := min_le_right _ _
  have hk0 : (0:ℝ) ≤ clampR 0.0 0.95 (1.0 - dt * 5.0) :=
    le_trans (by norm_num) hk1
  constructor
  · intro hv
    have hcond : p.velocity.length > 1.0 := by
      rw [show (1.0:ℝ) = 1 from by norm_num]
      exact hv
    have hif : apply_brake p dt
        = { p with velocity := p.velocity.smul (clampR 0.0 0.95 (1.0 - dt * 5.0)) } := by
      simp only [apply_brake]
      rw [if_pos hcond]
    have hlen : (apply_brake p dt).velocity.length
        = clampR 0.0 0.95 (1.0 - dt * 5.0) * p.velocity.length := by
      rw [hif]
      exact Vec3.length_smul _ _ hk0
    refine ⟨by rw [hif], hlen, ?_, ?_⟩
    · rw [hlen]
      nlinarith [hk2, hv]
    · rw [hlen]
      nlinarith [hk1, hv]
  · intro hle
    simp only [apply_brake]
    rw [if_neg]
    rw [show (1.0:ℝ) = 1 from by norm_num]
    exact not_lt.mpr hle

/-- Witness for C6: braking the initial state (speed 50) at `dt = 1/60`
scales the velocity by the clamp factor and strictly reduces the speed. -/
theorem apply_brake_behavior_witness :
    (apply_brake Plane.new (1/60)).velocity
        = Plane.new.velocity.smul (clampR 0.0 0.95 (1.0 - (1/60) * 5.0)) ∧
    (apply_brake Plane.new (1/60)).velocity.length < Plane.new.velocity.length := by
  obtain ⟨h1, -⟩ := apply_brake_behavior Plane.new (1/60) ⟨by norm_num, by norm_num⟩
  have hv : (1:ℝ) < Plane.new.velocity.length := by
    rw [length_new_velocity]
    norm_num
  exact ⟨(h1 hv).1, (h1 hv).2.2.1⟩

/-- C7: for every state whose orientation satisfies the data-model unit-norm
invariant, after `update` the orientation has norm exactly 1 (the composed
orientation is renormalized before being stored). -/
theorem orientation_unit_norm (s : Plane) (dt : ℝ) (i : InputState)
    (h : s.orientation.length = 1) :
    ((s.update dt i).orientation).length = 1 := by
  rw [Plane.update_orientation]
  unfold specNewOrientation
  have hn : s.orientation.normSq = 1 := by
    have h2 := congrArg (fun t : ℝ => t ^ 2) h
    simpa [Quat.length, Real.sq_sqrt (Quat.normSq_nonneg s.orientation)] using h2
  apply Quat.length_normalize
  rw [Quat.normSq_mul, hn, Quat.normSq_fromEulerXYZ]
  norm_num

/-- Witness for C7: the initial state has unit orientation, and one update
with `dt = 1/60` and neutral input keeps the norm at 1. -/
theorem orientation_unit_norm_witness :
    ((Plane.new.update (1/60) inputNone).orientation).length = 1 :=
  orientation_unit_norm Plane.new (1/60) inputNone new_orientation_length

theorem fromEulerXYZ_y_only (b : ℝ) :
    Quat.fromEulerXYZ 0 b 0 = Quat.rotY b := by
  simp [Quat.fromEulerXYZ, Quat.rotX, Quat.rotY, Quat.rotZ, Quat.mul]

theorem delta_yawLeft :
    Quat.fromEulerXYZ (pitch_input inputYawLeft * 0.9 * (1/60))
      (yaw_input inputYawLeft * 0.4 * (1/60))
      (roll_input inputYawLeft * 1.4 * (1/60)) = Quat.rotY (1/150) := by
  rw [show pitch_input inputYawLeft * 0.9 * (1/60) = 0 from by
      norm_num [pitch_input, boolToR, inputYawLeft, inputNone],
    show yaw_input inputYawLeft * 0.4 * (1/60) = 1/150 from by
      norm_num [yaw_input, boolToR, inputYawLeft, inputNone],
    show roll_input inputYawLeft * 1.4 * (1/60) = 0 from by
      norm_num [roll_input, boolToR, inputYawLeft, inputNone]]
  exact fromEulerXYZ_y_only (1/150)

theorem flipped_mul_rotY :
    (planeFlipped.orientation).mul (Quat.rotY (1/150))
      = ⟨Real.cos (1/300), 0, Real.sin (1/300), 0⟩ := by
  simp [planeFlipped, Quat.rotY, Quat.mul]
  norm_num

theorem rotY_mul_flipped :
    (Quat.rotY (1/150)).mul planeFlipped.orientation
      = ⟨Real.cos (1/300), 0, -Real.sin (1/300), 0⟩ := by
  simp [planeFlipped, Quat.rotY, Quat.mul]
  norm_num

theorem length_cos_sin_quat :
    (Quat.mk (Real.cos (1/300)) 0 (Real.sin (1/300)) 0).length = 1 := by
  have hsc := Real.sin_sq_add_cos_sq ((1:ℝ)/300)
  unfold Quat.length
  rw [show (Quat.mk (Real.cos (1/300)) 0 (Real.sin (1/300)) 0).normSq = 1 from by
    simp only [Quat.normSq]
    linear_combination hsc]
  exact Real.sqrt_one

theorem length_cos_neg_sin_quat :
    (Quat.mk (Real.cos (1/300)) 0 (-Real.sin (1/300)) 0).length = 1 := by
  have hsc := Real.sin_sq_add_cos_sq ((1:ℝ)/300)
  unfold Quat.length
  rw [show (Quat.mk (Real.cos (1/300)) 0 (-Real.sin (1/300)) 0).normSq = 1 from by
    simp only [Quat.normSq]
    linear_combination hsc]
  exact Real.sqrt_one

/-- C8: `update` computes the new orientation as
`normalize(orientation * delta)` with `delta` the Euler rotation composed
from the pitch/yaw/roll increments `0.9*dt`, `0.4*dt`, `1.4*dt` in the
fixed X-then-Y-then-Z axis order; moreover the delta is genuinely
post-multiplied: at a concrete rolled state with yaw-left held, the
pre-multiplied composition `normalize(delta * orientation)` gives a
different orientation. -/
theorem orientation_post_multiplied (s : Plane) (dt : ℝ) (i : InputState) :
    (s.update dt i).orientation
      = (s.orientation.mul (Quat.fromEulerXYZ (pitch_input i * 0.9 * dt)
          (yaw_input i * 0.4 * dt) (roll_input i * 1.4 * dt))).normalize ∧
    (planeFlipped.update (1/60) inputYawLeft).orientation
      ≠ ((Quat.fromEulerXYZ (pitch_input inputYawLeft * 0.9 * (1/60))
          (yaw_input inputYawLeft * 0.4 * (1/60))
          (roll_input inputYawLeft * 1.4 * (1/60))).mul
            planeFlipped.orientation).normalize := by
  constructor
  · exact (Plane.update_orientation s dt i).trans rfl
  · rw [Plane.update_orientation]
    unfold specNewOrientation
    simp only [PITCH_RATE, YAW_RATE, ROLL_RATE]
    rw [delta_yawLeft, flipped_mul_rotY, rotY_mul_flipped]
    intro heq
    have hz := congrArg Quat.z heq
    simp only [Quat.normalize, length_cos_sin_quat, length_cos_neg_sin_quat,
      Quat.smul] at hz
    have hs : 0 < Real.sin (1/300) :=
      Real.sin_pos_of_pos_of_lt_pi (by norm_num)
        (by nlinarith [Real.pi_gt_three])
    norm_num at hz
    linarith [hs, hz]

/-- C9: in every frame where the brake flag is held, the main loop's frame
step runs the full `update` first and applies `apply_brake` to its result,
so braking acts on the post-integration velocity of the same frame. -/
theorem brake_applied_after_update (p : Plane) (dt : ℝ) (i : InputState)
    (h : i.brake = true) :
    frameStep p dt i = apply_brake (p.update dt i) dt := by
  simp [frameStep, h]

/-- Witness for C9: with the brake input held, the frame step at the initial
state equals braking the updated state. -/
theorem brake_applied_after_update_witness :
    frameStep Plane.new (1/60) inputBrake
      = apply_brake (Plane.new.update (1/60) inputBrake) (1/60) :=
  brake_applied_after_update Plane.new (1/60) inputBrake rfl

/-- C10: `apply_brake` never changes position, orientation or throttle;
velocity is the only field it can modify. -/
theorem apply_brake_frame_effect (p : Plane) (dt : ℝ) :
    (apply_brake p dt).position = p.position ∧
    (apply_brake p dt).orientation = p.orientation ∧
    (apply_brake p dt).throttle = p.throttle := by
  by_cases h : p.velocity.length > 1.0
  · simp [apply_brake, h]
  · simp [apply_brake, h]

end FlightSim

end
